import Mathlib

/-!
# Verification of the driftbot paper-trading engine

Shallow embedding of the driftbot repository (paper broker, risk manager,
adaptive EMA strategy, orchestrator wiring) over exact rational arithmetic,
together with theorems settling the frozen claims about the specification.

JavaScript `number` values are modelled as `ℚ` (the idealized real-number
semantics of the arithmetic); `null`/absent values are modelled as `Option`.
-/

namespace Driftbot

/-- `Math.sign` of JavaScript, on rationals. -/
def sign (x : ℚ) : ℚ := if 0 < x then 1 else if x < 0 then -1 else 0

/-- Order side, as the `'buy'` / `'sell'` strings of the source. -/
inductive Side
  | buy
  | sell
deriving DecidableEq, Repr

/-! ## Broker / Ledger (src/execution/paperBroker.js)

`createPaperBroker` closes over the fee and slippage constants
(`feeBps = 2`, `slippageBps = 1`); they are carried in `BrokerCfg` so that
the spec scenario with fee and slippage set to zero is expressible. -/

structure BrokerCfg where
  feeBps : ℚ
  slippageBps : ℚ
deriving DecidableEq, Repr

/-- The constants hard-coded in `createPaperBroker`: 2 bps fee, 1 bp slippage. -/
def defaultBrokerCfg : BrokerCfg := { feeBps := 2, slippageBps := 1 }

/-- The broker-visible ledger slice: global cash and deposit plus the
per-instrument book fields mutated by `paperFill` (`store.get()` state). -/
structure BrokerState where
  deposit : ℚ
  cash : ℚ
  position : ℚ
  entryPrice : ℚ
  realizedPnL : ℚ
  feesPaid : ℚ
deriving DecidableEq, Repr

/-- Fresh ledger created by the store: `cash = deposit`, everything else zero. -/
def initBroker (deposit : ℚ) : BrokerState :=
  { deposit := deposit, cash := deposit, position := 0, entryPrice := 0
    realizedPnL := 0, feesPaid := 0 }

/-- `slip(price, side)`: slippage against the trader. -/
def slip (c : BrokerCfg) (price : ℚ) (side : Side) : ℚ :=
  let s := (c.slippageBps / 10000) * price
  match side with
  | .buy => price + s
  | .sell => price - s

/-- The signed quantity `side === 'buy' ? qty : -qty` added to the position. -/
def dirQty (side : Side) (qty : ℚ) : ℚ :=
  match side with
  | .buy => qty
  | .sell => -qty

/-- A trade record as built by `paperFill` (the `t` timestamp string is the
external `nowIso()` value, threaded in as a parameter). -/
structure Trade where
  t : String
  side : Side
  qty : ℚ
  px : ℚ
  notionalSigned : ℚ
deriving DecidableEq, Repr

/-- `paperFill(side, qty, markPrice)` translated statement by statement;
returns the updated ledger and the trade record (`none` on the `qty <= 0`
no-op path). -/
def paperFill (c : BrokerCfg) (st : BrokerState) (side : Side) (qty markPrice : ℚ)
    (tNow : String) : BrokerState × Option Trade :=
  if qty ≤ 0 then (st, none) else
  let px := slip c markPrice side
  let notional := px * qty
  -- cash
  let cash1 := match side with
    | .buy => st.cash - notional
    | .sell => st.cash + notional
  -- fees (applyFee)
  let fee := (c.feeBps / 10000) * |notional|
  let feesPaid1 := st.feesPaid + fee
  let cash2 := cash1 - fee
  -- position & realized
  let prevPos := st.position
  let newPos := prevPos + dirQty side qty
  let st1 : BrokerState :=
    if prevPos = 0 ∨ sign prevPos = sign newPos then
      -- increase / same side
      let totalCost := st.entryPrice * |prevPos| + px * qty
      let newQtyAbs := |newPos|
      { st with cash := cash2, feesPaid := feesPaid1
                entryPrice := if 0 < newQtyAbs then totalCost / newQtyAbs else 0 }
    else
      -- reduce/close/flip
      let closingQty := min |prevPos| qty
      let realized := (px - st.entryPrice) * sign prevPos * closingQty
      let entry1 :=
        if 0 < |newPos| ∧ sign newPos ≠ sign prevPos then px
        else if newPos = 0 then 0
        else st.entryPrice
      { st with cash := cash2, feesPaid := feesPaid1
                realizedPnL := st.realizedPnL + realized, entryPrice := entry1 }
  let st2 := { st1 with position := newPos }
  let trade : Trade :=
    { t := tNow, side := side, qty := qty, px := px
      notionalSigned := px * qty * (match side with | .sell => 1 | .buy => -1) }
  (st2, some trade)

/-- `markToMarketPx(markPrice)`: the instrument's unrealized PnL. -/
def markToMarketPx (st : BrokerState) (markPrice : ℚ) : ℚ :=
  if st.position = 0 then 0
  else
    let pnlPerUnit := (markPrice - st.entryPrice) * sign st.position
    pnlPerUnit * |st.position|

/-- Modelled from the spec: the multi-market paper broker used by `runBot`
(which destructures `{ trade, realizedDelta } = broker.paperFill(...)`) is not
among the provided sources — only its caller `runBot` and the README
declaration ("returns realizedDelta on fills") are.  Per §4.2 of the spec
("Returns the Trade and the realized-PnL delta caused by this fill") it runs
the same fill algebra as `paperFill` on the instrument's book and additionally
returns the realized-PnL delta caused by the fill. -/
def paperFillRet (c : BrokerCfg) (st : BrokerState) (side : Side) (qty markPrice : ℚ)
    (tNow : String) : BrokerState × Option (Trade × ℚ) :=
  let r := paperFill c st side qty markPrice tNow
  (r.1, r.2.map (fun tr => (tr, r.1.realizedPnL - st.realizedPnL)))

/-- Broker configuration with fee and slippage set to zero (the spec's
"ignoring fee/slippage" scenario). -/
def zeroCostCfg : BrokerCfg := { feeBps := 0, slippageBps := 0 }

/-! ### Theorems about the broker -/

/-- C1: the NAV cross-check identity
`cash + Σ UPnL = deposit + Σ RPnL + Σ UPnL − Σ fees` fails as soon as a
position is open: after `buy qty=2 @ mark=100` from a fresh ledger with
deposit 10000 (default 2 bps fee, 1 bp slippage), the two sides differ by
the open cost basis `entryPrice × position = 200.02 = 10001/50`, far beyond
the 1e-6 tolerance.  (`runBot`'s NAV cross-check would warn here, so the
code contradicts its own consistency check.) -/
theorem c1_nav_crosscheck_diverges_on_open_position :
    ((paperFill defaultBrokerCfg (initBroker 10000) .buy 2 100 "t").1).deposit
        + ((paperFill defaultBrokerCfg (initBroker 10000) .buy 2 100 "t").1).realizedPnL
        + markToMarketPx ((paperFill defaultBrokerCfg (initBroker 10000) .buy 2 100 "t").1) 100
        - ((paperFill defaultBrokerCfg (initBroker 10000) .buy 2 100 "t").1).feesPaid
        - (((paperFill defaultBrokerCfg (initBroker 10000) .buy 2 100 "t").1).cash
            + markToMarketPx ((paperFill defaultBrokerCfg (initBroker 10000) .buy 2 100 "t").1) 100)
      = 10001 / 50
    ∧ (1 : ℚ) / 1000000 < 10001 / 50 := by
  norm_num [paperFill, initBroker, defaultBrokerCfg, slip, dirQty, sign,
    markToMarketPx, abs, min_def]

/-- C2: whenever the prior position is nonzero and the resulting position
`prevPos ± qty` differs in sign from it (reduce past zero, close, or flip),
`paperFill` adds exactly
`(fillPrice − priorEntry) × sign(prevPos) × min(|prevPos|, qty)` to
`realizedPnL` (with `fillPrice` the slippage-adjusted price); a flip sets
`entryPrice` to the fill price and an exact close resets it to 0. -/
theorem c2_paperFill_reduce_realizes (c : BrokerCfg) (st : BrokerState) (side : Side)
    (qty markPrice : ℚ) (tNow : String)
    (hq : 0 < qty) (hpos : st.position ≠ 0)
    (hsign : sign (st.position + dirQty side qty) ≠ sign st.position) :
    ((paperFill c st side qty markPrice tNow).1).realizedPnL
        = st.realizedPnL
          + (slip c markPrice side - st.entryPrice) * sign st.position * min |st.position| qty
      ∧ ((paperFill c st side qty markPrice tNow).1).position = st.position + dirQty side qty
      ∧ (st.position + dirQty side qty ≠ 0 →
          ((paperFill c st side qty markPrice tNow).1).entryPrice = slip c markPrice side)
      ∧ (st.position + dirQty side qty = 0 →
          ((paperFill c st side qty markPrice tNow).1).entryPrice = 0) := by
  have hq' : ¬ qty ≤ 0 := not_le.mpr hq
  have hbr : ¬ (st.position = 0 ∨ sign st.position = sign (st.position + dirQty side qty)) := by
    push_neg
    exact ⟨hpos, fun h => hsign h.symm⟩
  refine ⟨?_, ?_, ?_, ?_⟩
  · simp only [paperFill, if_neg hq', if_neg hbr]
  · simp only [paperFill, if_neg hq', if_neg hbr]
  · intro hnz
    have habs : 0 < |st.position + dirQty side qty| ∧
        sign (st.position + dirQty side qty) ≠ sign st.position :=
      ⟨abs_pos.mpr hnz, hsign⟩
    simp only [paperFill, if_neg hq', if_neg hbr, if_pos habs]
  · intro hz
    have habs : ¬ (0 < |st.position + dirQty side qty| ∧
        sign (st.position + dirQty side qty) ≠ sign st.position) := by
      rw [hz]
      simp
    simp only [paperFill, if_neg hq', if_neg hbr, if_neg habs, if_pos hz]

/-- Witness for C2, the spec scenario: fee and slippage zero, starting flat
with deposit 10000, `buy 2 @ 100` then `sell 3 @ 110` realizes exactly 20 and
leaves position −1 at entryPrice 110. -/
theorem c2_witness :
    (0 : ℚ) < 3
      ∧ ((paperFill zeroCostCfg (initBroker 10000) .buy 2 100 "t1").1).position ≠ 0
      ∧ sign (((paperFill zeroCostCfg (initBroker 10000) .buy 2 100 "t1").1).position
            + dirQty .sell 3)
          ≠ sign ((paperFill zeroCostCfg (initBroker 10000) .buy 2 100 "t1").1).position
      ∧ ((paperFill zeroCostCfg
            (paperFill zeroCostCfg (initBroker 10000) .buy 2 100 "t1").1
            .sell 3 110 "t2").1).realizedPnL = 20
      ∧ ((paperFill zeroCostCfg
            (paperFill zeroCostCfg (initBroker 10000) .buy 2 100 "t1").1
            .sell 3 110 "t2").1).position = -1
      ∧ ((paperFill zeroCostCfg
            (paperFill zeroCostCfg (initBroker 10000) .buy 2 100 "t1").1
            .sell 3 110 "t2").1).entryPrice = 110 := by
  have hs1 : (paperFill zeroCostCfg (initBroker 10000) .buy 2 100 "t1").1
      = { deposit := 10000, cash := 9800, position := 2, entryPrice := 100
          realizedPnL := 0, feesPaid := 0 } := by
    norm_num [paperFill, initBroker, zeroCostCfg, slip, dirQty, sign, abs, min_def]
  have hq : (0 : ℚ) < 3 := by norm_num
  have hpos : ((paperFill zeroCostCfg (initBroker 10000) .buy 2 100 "t1").1).position ≠ 0 := by
    rw [hs1]; norm_num
  have hsign : sign (((paperFill zeroCostCfg (initBroker 10000) .buy 2 100 "t1").1).position
        + dirQty .sell 3)
      ≠ sign ((paperFill zeroCostCfg (initBroker 10000) .buy 2 100 "t1").1).position := by
    rw [hs1]; norm_num [dirQty, sign]
  have h := c2_paperFill_reduce_realizes zeroCostCfg
    ((paperFill zeroCostCfg (initBroker 10000) .buy 2 100 "t1").1) .sell 3 110 "t2"
    hq hpos hsign
  refine ⟨hq, hpos, hsign, ?_, ?_, ?_⟩
  · rw [h.1, hs1]
    norm_num [zeroCostCfg, slip, sign, min_def, abs]
  · rw [h.2.1, hs1]
    norm_num [dirQty]
  · have hnz : ((paperFill zeroCostCfg (initBroker 10000) .buy 2 100 "t1").1).position
        + dirQty .sell 3 ≠ 0 := by
      rw [hs1]; norm_num [dirQty]
    rw [h.2.2.1 hnz]
    norm_num [zeroCostCfg, slip]

/-- C8: for every executed fill (`qty > 0`) the (spec-modelled, see
`paperFillRet`) broker returns both the Trade record of the fill and the
realized-PnL delta it caused: the delta is 0 for fills that only open or
increase a position, and equals the closing-portion realized PnL otherwise. -/
theorem c8_paperFillRet_trade_and_delta (c : BrokerCfg) (st : BrokerState) (side : Side)
    (qty markPrice : ℚ) (tNow : String) (hq : 0 < qty) :
    (paperFillRet c st side qty markPrice tNow).2
        = some ({ t := tNow, side := side, qty := qty, px := slip c markPrice side
                  notionalSigned := slip c markPrice side * qty
                    * (match side with | .sell => 1 | .buy => -1) },
                ((paperFill c st side qty markPrice tNow).1).realizedPnL - st.realizedPnL)
      ∧ ((st.position = 0 ∨ sign st.position = sign (st.position + dirQty side qty)) →
          ((paperFill c st side qty markPrice tNow).1).realizedPnL - st.realizedPnL = 0)
      ∧ (¬ (st.position = 0 ∨ sign st.position = sign (st.position + dirQty side qty)) →
          ((paperFill c st side qty markPrice tNow).1).realizedPnL - st.realizedPnL
            = (slip c markPrice side - st.entryPrice) * sign st.position
                * min |st.position| qty) := by
  have hq' : ¬ qty ≤ 0 := not_le.mpr hq
  refine ⟨?_, ?_, ?_⟩
  · simp only [paperFillRet, paperFill, if_neg hq', Option.map_some']
  · intro hbr
    simp only [paperFill, if_neg hq', if_pos hbr]
    ring
  · intro hbr
    simp only [paperFill, if_neg hq', if_neg hbr]
    ring

/-- Witness for C8: a concrete opening fill (delta 0) instantiating the
theorem at `buy 1 @ 50` from a fresh ledger. -/
theorem c8_witness :
    (0 : ℚ) < 1
      ∧ (paperFillRet defaultBrokerCfg (initBroker 1000) .buy 1 50 "t").2
          = some ({ t := "t", side := .buy, qty := 1, px := slip defaultBrokerCfg 50 .buy
                    notionalSigned := slip defaultBrokerCfg 50 .buy * 1 * -1 },
                  ((paperFill defaultBrokerCfg (initBroker 1000) .buy 1 50 "t").1).realizedPnL
                    - (initBroker 1000).realizedPnL)
      ∧ ((paperFill defaultBrokerCfg (initBroker 1000) .buy 1 50 "t").1).realizedPnL
          - (initBroker 1000).realizedPnL = 0 := by
  have hq : (0 : ℚ) < 1 := by norm_num
  have h := c8_paperFillRet_trade_and_delta defaultBrokerCfg (initBroker 1000) .buy 1 50 "t" hq
  refine ⟨hq, h.1, ?_⟩
  refine h.2.1 (Or.inl ?_)
  norm_num [initBroker]

/-! ## Risk manager (src/risk/riskManager.js)

The store's multi-market state (src/state/store.js, multi-market variant):
global `cash`/`deposit`, the per-symbol market books, and the `meta`
day-start-equity anchor.  `ensureMarket`'s lazy insertion of the default book
(all-zero, empty trade log) is represented by a total lookup returning the
default book, which is observationally the same state.  Wall-clock reads
(`Date.now()`, today's date string) are threaded in as parameters. -/

structure MarketBook where
  position : ℚ
  entryPrice : ℚ
  realizedPnL : ℚ
  feesPaid : ℚ
  lastMark : Option ℚ
deriving DecidableEq, Repr

/-- The default book `ensureMarket` creates on first access. -/
def emptyBook : MarketBook :=
  { position := 0, entryPrice := 0, realizedPnL := 0, feesPaid := 0, lastMark := none }

structure StoreState where
  deposit : ℚ
  cash : ℚ
  markets : List (String × MarketBook)
  dayStartDate : Option String
  dayStartEquity : ℚ
deriving DecidableEq, Repr

/-- `store.ensureMarket(symbol)`, viewed as a read (see module comment). -/
def getMarket (s : StoreState) (symbol : String) : MarketBook :=
  (s.markets.lookup symbol).getD emptyBook

/-- Risk-gate configuration `cfg.RISK`. -/
structure RiskCfg where
  maxPositionUsdPerMarket : ℚ
  maxTradesPerMin : ℕ
  cooldownAfterLossMs : ℚ
  dailyLossLimitPct : ℚ
deriving DecidableEq, Repr

/-- The risk manager's own mutable state plus the store it reads/writes:
the global throttle window `tradeTimestamps` (ms) and `lastLossTs`. -/
structure RiskState where
  store : StoreState
  tradeTimestamps : List ℚ
  lastLossTs : ℚ
deriving DecidableEq, Repr

/-- A risk decision `{ allowed, qty, reason }`. -/
structure Decision where
  allowed : Bool
  qty : ℚ
  reason : String
deriving DecidableEq, Repr

/-- `prune(arr, windowMs)` at `windowMs = 60000`: shift entries older than
the 60-second window off the front. -/
def prune (now : ℚ) (arr : List ℚ) : List ℚ :=
  arr.dropWhile (fun ts => decide (60000 < now - ts))

/-- `calcUPnLTotal()`: Σ unrealized PnL over all market books (markets with
no observed mark or zero position contribute 0). -/
def bookUPnL (m : MarketBook) : ℚ :=
  match m.lastMark with
  | none => 0
  | some lm =>
    if m.position = 0 then 0
    else (lm - m.entryPrice) * sign m.position * |m.position|

def calcUPnLTotal (s : StoreState) : ℚ :=
  (s.markets.map (fun p => bookUPnL p.2)).sum

/-- `getEquity()` = cash + Σ unrealized PnL. -/
def getEquity (s : StoreState) : ℚ :=
  s.cash + calcUPnLTotal s

/-- `ensureDayStartEquity()`: capture the day-start equity anchor once per
calendar day (`today` is the `YYYY-MM-DD` wall-clock string). -/
def ensureDayStartEquity (s : StoreState) (today : String) : ℚ × StoreState :=
  if s.dayStartDate ≠ some today then
    let eq := getEquity s
    (eq, { s with dayStartDate := some today, dayStartEquity := eq })
  else
    (s.dayStartEquity, s)

/-- `isExit(symbol, side)`: a buy closes a short, a sell closes a long. -/
def isExit (s : StoreState) (symbol : String) (side : Side) : Bool :=
  match side with
  | .buy => decide ((getMarket s symbol).position < 0)
  | .sell => decide (0 < (getMarket s symbol).position)

/-- `(side === 'buy') ? (position + desiredQty) : (position - desiredQty)`:
the position after the proposed fill. -/
def nextPosition (pos : ℚ) (side : Side) (desiredQty : ℚ) : ℚ :=
  match side with
  | .buy => pos + desiredQty
  | .sell => pos - desiredQty

/-- `capByMaxPosition(symbol, side, desiredQty, mark)`: cap the quantity so
the resulting position's notional does not exceed the per-market USD ceiling
(`0` disables the ceiling). -/
def capByMaxPosition (R : RiskCfg) (s : StoreState) (symbol : String) (side : Side)
    (desiredQty mark : ℚ) : ℚ :=
  let mkt := getMarket s symbol
  let maxUsd := R.maxPositionUsdPerMarket
  if maxUsd ≤ 0 then desiredQty
  else
    let nextPos := nextPosition mkt.position side desiredQty
    let nextAbsUsd := |nextPos| * mark
    if nextAbsUsd ≤ maxUsd then desiredQty
    else
      let targetAbsBase := maxUsd / mark
      let maxDeltaBase := max 0 (targetAbsBase - |mkt.position|)
      min desiredQty maxDeltaBase

/-- The tail of `evaluate` once all reject-checks passed: cap by the
per-market ceiling (lines 109–113), and record the approval into the throttle
window only on the uncapped path (lines 115–117). -/
def capAndRecord (R : RiskCfg) (st : RiskState) (symbol : String) (side : Side)
    (desiredQty mark now : ℚ) : Decision × RiskState :=
  let cappedQty := capByMaxPosition R st.store symbol side desiredQty mark
  if cappedQty < desiredQty then
    ({ allowed := true, qty := cappedQty, reason := "max_position" }, st)
  else
    ({ allowed := true, qty := desiredQty, reason := "ok" },
     { st with tradeTimestamps := st.tradeTimestamps ++ [now] })

/-- `evaluate(symbol, side, desiredQty, mark)` translated branch by branch;
`now` and `today` are the wall-clock reads. -/
def evaluate (R : RiskCfg) (st : RiskState) (symbol : String) (side : Side)
    (desiredQty mark now : ℚ) (today : String) : Decision × RiskState :=
  -- Always allow exits to flat
  if isExit st.store symbol side then
    ({ allowed := decide (0 < desiredQty), qty := desiredQty
       reason := if 0 < desiredQty then "exit" else "zero" }, st)
  else
    -- Throttle new entries: max trades per minute (global)
    let ts1 := prune now st.tradeTimestamps
    let st1 : RiskState := { st with tradeTimestamps := ts1 }
    if R.maxTradesPerMin ≤ ts1.length then
      ({ allowed := false, qty := 0, reason := "throttle" }, st1)
    -- Cooldown after realized loss
    else if R.cooldownAfterLossMs ≠ 0 ∧ now - st.lastLossTs < R.cooldownAfterLossMs then
      ({ allowed := false, qty := 0, reason := "cooldown_after_loss" }, st1)
    -- Daily loss limit (relative to day-start equity)
    else if 0 < R.dailyLossLimitPct then
      let ds := ensureDayStartEquity st1.store today
      let st2 : RiskState := { st1 with store := ds.2 }
      let eq := st1.store.cash + calcUPnLTotal st1.store
      let floorEq := ds.1 * (1 - R.dailyLossLimitPct / 100)
      if eq ≤ floorEq then
        ({ allowed := false, qty := 0, reason := "daily_loss_limit" }, st2)
      else
        capAndRecord R st2 symbol side desiredQty mark now
    else
      capAndRecord R st1 symbol side desiredQty mark now

/-- `onRealizedPnL(pnl)`: arm the loss-cooldown timer on a negative delta. -/
def onRealizedPnL (st : RiskState) (pnl now : ℚ) : RiskState :=
  if pnl < 0 then { st with lastLossTs := now } else st

/-- The members of the object returned by `createRiskManager` (riskManager.js
lines 124–128). -/
def riskApiMembers : List String := ["evaluate", "onRealizedPnL", "ensureDayStartEquity"]

/-- The risk-manager method `runBot` invokes after every executed fill
(runBot.js: `risk.onTrade({ symbol, side, qty, price, realizedDelta })`). -/
def runBotPostFillCallee : String := "onTrade"

/-! ### Helper lemmas about the risk gate -/

/-- Capturing the day-start anchor does not change any market book. -/
theorem getMarket_ensureDayStartEquity (s : StoreState) (today symbol : String) :
    getMarket (ensureDayStartEquity s today).2 symbol = getMarket s symbol := by
  unfold ensureDayStartEquity
  split
  · rfl
  · rfl

/-- `capByMaxPosition` depends on the store only through the symbol's book. -/
theorem capByMaxPosition_congr (R : RiskCfg) (s s' : StoreState) (symbol : String)
    (side : Side) (desiredQty mark : ℚ)
    (h : getMarket s symbol = getMarket s' symbol) :
    capByMaxPosition R s symbol side desiredQty mark
      = capByMaxPosition R s' symbol side desiredQty mark := by
  unfold capByMaxPosition
  rw [h]

/-- A non-exit evaluation that passes the throttle, cooldown and daily-loss
checks ends in `capAndRecord`: the decision is determined by
`capByMaxPosition`, and a throttle timestamp is recorded exactly on the
uncapped (`"ok"`) path. -/
theorem evaluate_pass_eq (R : RiskCfg) (st : RiskState) (symbol : String) (side : Side)
    (desiredQty mark now : ℚ) (today : String)
    (hnx : isExit st.store symbol side = false)
    (hth : (prune now st.tradeTimestamps).length < R.maxTradesPerMin)
    (hcd : ¬ (R.cooldownAfterLossMs ≠ 0 ∧ now - st.lastLossTs < R.cooldownAfterLossMs))
    (hdl : ¬ (0 < R.dailyLossLimitPct ∧
        st.store.cash + calcUPnLTotal st.store
          ≤ (ensureDayStartEquity st.store today).1 * (1 - R.dailyLossLimitPct / 100))) :
    (evaluate R st symbol side desiredQty mark now today).1
        = (if capByMaxPosition R st.store symbol side desiredQty mark < desiredQty then
            { allowed := true, qty := capByMaxPosition R st.store symbol side desiredQty mark
              reason := "max_position" }
          else { allowed := true, qty := desiredQty, reason := "ok" })
      ∧ (evaluate R st symbol side desiredQty mark now today).2.tradeTimestamps
        = (if capByMaxPosition R st.store symbol side desiredQty mark < desiredQty then
            prune now st.tradeTimestamps
          else prune now st.tradeTimestamps ++ [now]) := by
  have hth' : ¬ R.maxTradesPerMin ≤ (prune now st.tradeTimestamps).length := not_le.mpr hth
  by_cases hpct : 0 < R.dailyLossLimitPct
  · have heq : ¬ st.store.cash + calcUPnLTotal st.store
        ≤ (ensureDayStartEquity st.store today).1 * (1 - R.dailyLossLimitPct / 100) :=
      fun h => hdl ⟨hpct, h⟩
    have hcap : capByMaxPosition R (ensureDayStartEquity st.store today).2 symbol side
        desiredQty mark = capByMaxPosition R st.store symbol side desiredQty mark :=
      capByMaxPosition_congr R _ _ symbol side desiredQty mark
        (getMarket_ensureDayStartEquity st.store today symbol)
    simp only [evaluate, hnx, Bool.false_eq_true, if_false, if_neg hth', if_neg hcd,
      if_pos hpct, if_neg heq, capAndRecord, hcap]
    split
    · exact ⟨rfl, rfl⟩
    · exact ⟨rfl, rfl⟩
  · simp only [evaluate, hnx, Bool.false_eq_true, if_false, if_neg hth', if_neg hcd,
      if_neg hpct, capAndRecord]
    split
    · exact ⟨rfl, rfl⟩
    · exact ⟨rfl, rfl⟩

/-! ### Theorems about the risk gate -/

/-- C3: an order that strictly reduces existing exposure toward flat
(buy against a short, or sell against a long) with positive quantity is
always allowed at the full quantity, whatever the throttle window, the
loss-cooldown timer, the daily drawdown state or any other configuration —
the exit branch returns before every other check, leaving the risk state
untouched. -/
theorem c3_exit_always_allowed (R : RiskCfg) (st : RiskState) (symbol : String)
    (side : Side) (desiredQty mark now : ℚ) (today : String)
    (hq : 0 < desiredQty)
    (hexit : (side = .buy ∧ (getMarket st.store symbol).position < 0)
      ∨ (side = .sell ∧ 0 < (getMarket st.store symbol).position)) :
    evaluate R st symbol side desiredQty mark now today
      = ({ allowed := true, qty := desiredQty, reason := "exit" }, st) := by
  have hex : isExit st.store symbol side = true := by
    rcases hexit with ⟨hs, hp⟩ | ⟨hs, hp⟩ <;> subst hs <;> simp [isExit, hp]
  simp [evaluate, hex, hq]

/-- Witness for C3: a sell of 2 against a long position of 5 is allowed with
reason `"exit"` even though the throttle cap is 0 (window permanently full),
a loss-cooldown is active, and equity sits below the daily-loss floor. -/
theorem c3_witness :
    evaluate
      { maxPositionUsdPerMarket := 10, maxTradesPerMin := 0
        cooldownAfterLossMs := 60000, dailyLossLimitPct := 3 }
      { store :=
          { deposit := 10000, cash := 100
            markets := [("SOL-PERP",
              { position := 5, entryPrice := 10, realizedPnL := 0, feesPaid := 0
                lastMark := some 10 })]
            dayStartDate := some "2026-10-12", dayStartEquity := 10000 }
        tradeTimestamps := [990, 995, 1000], lastLossTs := 999 }
      "SOL-PERP" .sell 2 10 1000 "2026-10-12"
      = ({ allowed := true, qty := 2, reason := "exit" },
         { store :=
            { deposit := 10000, cash := 100
              markets := [("SOL-PERP",
                { position := 5, entryPrice := 10, realizedPnL := 0, feesPaid := 0
                  lastMark := some 10 })]
              dayStartDate := some "2026-10-12", dayStartEquity := 10000 }
           tradeTimestamps := [990, 995, 1000], lastLossTs := 999 }) := by
  refine c3_exit_always_allowed _ _ _ _ _ _ _ _ (by norm_num) (Or.inr ⟨rfl, ?_⟩)
  norm_num [getMarket, List.lookup]

/-- Core arithmetic of the quantity cap when the requested entry would
exceed the ceiling: the returned quantity is `max 0 (M/mark − |pos|)`, which
is strictly below the request. -/
theorem cap_core (M mark a q : ℚ) (hq : 0 < q) (hmark : 0 < mark)
    (hex : M < (a + q) * mark) :
    min q (max 0 (M / mark - a)) = max 0 (M / mark - a)
      ∧ max 0 (M / mark - a) < q := by
  have h1 : M / mark < a + q := (div_lt_iff₀ hmark).mpr hex
  have h2 : M / mark - a < q := by linarith
  have h3 : max 0 (M / mark - a) < q := max_lt hq h2
  exact ⟨min_eq_right (le_of_lt h3), h3⟩

/-- On a non-exit order whose requested resulting notional exceeds a positive
ceiling, `capByMaxPosition` returns `max 0 (M/mark − |pos|) < desiredQty`. -/
theorem capByMaxPosition_exceed (R : RiskCfg) (s : StoreState) (symbol : String)
    (side : Side) (desiredQty mark : ℚ)
    (hq : 0 < desiredQty) (hmax : 0 < R.maxPositionUsdPerMarket) (hmark : 0 < mark)
    (hside : (side = .buy ∧ 0 ≤ (getMarket s symbol).position)
      ∨ (side = .sell ∧ (getMarket s symbol).position ≤ 0))
    (hexceed : R.maxPositionUsdPerMarket
      < |nextPosition (getMarket s symbol).position side desiredQty| * mark) :
    capByMaxPosition R s symbol side desiredQty mark
        = max 0 (R.maxPositionUsdPerMarket / mark - |(getMarket s symbol).position|)
      ∧ capByMaxPosition R s symbol side desiredQty mark < desiredQty := by
  have habs : |nextPosition (getMarket s symbol).position side desiredQty|
      = |(getMarket s symbol).position| + desiredQty := by
    rcases hside with ⟨hs, hp⟩ | ⟨hs, hp⟩ <;> subst hs
    · simp only [nextPosition]
      rw [abs_of_nonneg (by linarith), abs_of_nonneg hp]
    · simp only [nextPosition]
      rw [abs_of_nonpos (by linarith), abs_of_nonpos hp]
      ring
  rw [habs] at hexceed
  have hcore := cap_core R.maxPositionUsdPerMarket mark |(getMarket s symbol).position|
    desiredQty hq hmark hexceed
  have hnle : ¬ (|nextPosition (getMarket s symbol).position side desiredQty| * mark
      ≤ R.maxPositionUsdPerMarket) := by
    rw [habs]
    exact not_le.mpr hexceed
  unfold capByMaxPosition
  rw [if_neg (not_le.mpr hmax), if_neg hnle]
  exact ⟨hcore.1, hcore.1 ▸ hcore.2⟩

/-- C4 (amended): a non-exit evaluation with `mark > 0` passing the
throttle, cooldown and daily-loss checks, whose requested quantity would push
the resulting notional above a positive ceiling, is still *allowed* (reason
`"max_position"`, never a rejection) with quantity
`max 0 (ceiling/mark − |position|)`.  When the prior position is within the
ceiling this quantity makes the resulting notional exactly the ceiling; when
the prior position alone already exceeds the ceiling the permitted quantity
is 0 (and the notional stays above the ceiling), which refutes the claim's
unconditional "equals the ceiling exactly". -/
theorem c4_cap_allows_and_resizes (R : RiskCfg) (st : RiskState) (symbol : String)
    (side : Side) (desiredQty mark now : ℚ) (today : String)
    (hq : 0 < desiredQty)
    (hnx : isExit st.store symbol side = false)
    (hth : (prune now st.tradeTimestamps).length < R.maxTradesPerMin)
    (hcd : ¬ (R.cooldownAfterLossMs ≠ 0 ∧ now - st.lastLossTs < R.cooldownAfterLossMs))
    (hdl : ¬ (0 < R.dailyLossLimitPct ∧
        st.store.cash + calcUPnLTotal st.store
          ≤ (ensureDayStartEquity st.store today).1 * (1 - R.dailyLossLimitPct / 100)))
    (hmax : 0 < R.maxPositionUsdPerMarket) (hmark : 0 < mark)
    (hexceed : R.maxPositionUsdPerMarket
      < |nextPosition (getMarket st.store symbol).position side desiredQty| * mark) :
    (evaluate R st symbol side desiredQty mark now today).1.allowed = true
      ∧ (evaluate R st symbol side desiredQty mark now today).1.reason = "max_position"
      ∧ (evaluate R st symbol side desiredQty mark now today).1.qty
          = max 0 (R.maxPositionUsdPerMarket / mark - |(getMarket st.store symbol).position|)
      ∧ (|(getMarket st.store symbol).position| * mark ≤ R.maxPositionUsdPerMarket →
          |nextPosition (getMarket st.store symbol).position side
              (evaluate R st symbol side desiredQty mark now today).1.qty| * mark
            = R.maxPositionUsdPerMarket)
      ∧ (R.maxPositionUsdPerMarket < |(getMarket st.store symbol).position| * mark →
          (evaluate R st symbol side desiredQty mark now today).1.qty = 0) := by
  have hside : (side = .buy ∧ 0 ≤ (getMarket st.store symbol).position)
      ∨ (side = .sell ∧ (getMarket st.store symbol).position ≤ 0) := by
    cases side
    · refine Or.inl ⟨rfl, ?_⟩
      by_contra hlt
      rw [isExit] at hnx
      simp only [decide_eq_false_iff_not, not_lt] at hnx
      exact hlt hnx
    · refine Or.inr ⟨rfl, ?_⟩
      by_contra hlt
      rw [isExit] at hnx
      simp only [decide_eq_false_iff_not, not_lt] at hnx
      exact hlt hnx
  have hcap := capByMaxPosition_exceed R st.store symbol side desiredQty mark
    hq hmax hmark hside hexceed
  have hev := evaluate_pass_eq R st symbol side desiredQty mark now today hnx hth hcd hdl
  have hdec : (evaluate R st symbol side desiredQty mark now today).1
      = { allowed := true
          qty := capByMaxPosition R st.store symbol side desiredQty mark
          reason := "max_position" } := by
    rw [hev.1, if_pos hcap.2]
  have hqty : (evaluate R st symbol side desiredQty mark now today).1.qty
      = max 0 (R.maxPositionUsdPerMarket / mark - |(getMarket st.store symbol).position|) := by
    rw [hdec, hcap.1]
  refine ⟨by rw [hdec], by rw [hdec], hqty, ?_, ?_⟩
  · intro hle
    have hdiv : |(getMarket st.store symbol).position| ≤ R.maxPositionUsdPerMarket / mark :=
      (le_div_iff₀ hmark).mpr hle
    have hqty2 : (evaluate R st symbol side desiredQty mark now today).1.qty
        = R.maxPositionUsdPerMarket / mark - |(getMarket st.store symbol).position| := by
      rw [hqty]
      exact max_eq_right (by linarith)
    rcases hside with ⟨hs, hp⟩ | ⟨hs, hp⟩ <;> subst hs
    · simp only [nextPosition]
      rw [hqty2, abs_of_nonneg hp]
      have : (getMarket st.store symbol).position
          + (R.maxPositionUsdPerMarket / mark - (getMarket st.store symbol).position)
          = R.maxPositionUsdPerMarket / mark := by ring
      rw [this, abs_of_nonneg (le_of_lt (div_pos hmax hmark)),
        div_mul_cancel₀ _ (ne_of_gt hmark)]
    · simp only [nextPosition]
      rw [hqty2, abs_of_nonpos hp]
      have : (getMarket st.store symbol).position
          - (R.maxPositionUsdPerMarket / mark - -(getMarket st.store symbol).position)
          = -(R.maxPositionUsdPerMarket / mark) := by ring
      rw [this, abs_neg, abs_of_nonneg (le_of_lt (div_pos hmax hmark)),
        div_mul_cancel₀ _ (ne_of_gt hmark)]
  · intro hgt
    have hdiv : R.maxPositionUsdPerMarket / mark < |(getMarket st.store symbol).position| :=
      (div_lt_iff₀ hmark).mpr hgt
    rw [hqty]
    exact max_eq_left (by linarith)

/-- Counterexample to C4 as stated: risk config fixture with a 100 USD
per-market ceiling and all other checks disabled or idle. -/
def c4R : RiskCfg :=
  { maxPositionUsdPerMarket := 100, maxTradesPerMin := 5
    cooldownAfterLossMs := 0, dailyLossLimitPct := 0 }

/-- State fixture for the C4 counterexample: a long position of 10 whose
notional at mark 12 (120 USD) already exceeds the 100 USD ceiling. -/
def c4St : RiskState :=
  { store :=
      { deposit := 10000, cash := 10000
        markets := [("SOL-PERP",
          { position := 10, entryPrice := 10, realizedPnL := 0, feesPaid := 0
            lastMark := none })]
        dayStartDate := none, dayStartEquity := 0 }
    tradeTimestamps := [], lastLossTs := 0 }

/-- C4 counterexample: a buy of 1 at mark 12 on a long position of 10 with a
100 USD ceiling would exceed the ceiling (132 > 100) and passes every other
check, yet the permitted quantity is 0, so the resulting position's notional
is 120 ≠ 100 — the quantity is *not* reduced "so that the resulting
position's notional equals the ceiling exactly". -/
theorem c4_counterexample :
    (100 : ℚ) < |(getMarket c4St.store "SOL-PERP").position + 1| * 12
      ∧ (evaluate c4R c4St "SOL-PERP" .buy 1 12 5000 "2026-10-12").1
          = { allowed := true, qty := 0, reason := "max_position" }
      ∧ |(getMarket c4St.store "SOL-PERP").position
          + (evaluate c4R c4St "SOL-PERP" .buy 1 12 5000 "2026-10-12").1.qty| * 12
          ≠ c4R.maxPositionUsdPerMarket := by
  norm_num [evaluate, isExit, getMarket, prune, capAndRecord, capByMaxPosition,
    nextPosition, c4R, c4St, emptyBook, List.lookup, abs, min_def, max_def]

/-- Witness for C4 (amended): entering from flat with desired quantity 20 at
mark 10 under a 100 USD ceiling is allowed with quantity 10, and the
resulting notional is exactly the ceiling. -/
theorem c4_witness :
    (evaluate c4R
        { store :=
            { deposit := 10000, cash := 10000, markets := []
              dayStartDate := none, dayStartEquity := 0 }
          tradeTimestamps := [], lastLossTs := 0 }
        "SOL-PERP" .buy 20 10 5000 "2026-10-12").1.allowed = true
      ∧ (evaluate c4R
          { store :=
              { deposit := 10000, cash := 10000, markets := []
                dayStartDate := none, dayStartEquity := 0 }
            tradeTimestamps := [], lastLossTs := 0 }
          "SOL-PERP" .buy 20 10 5000 "2026-10-12").1.reason = "max_position"
      ∧ |nextPosition (0 : ℚ) .buy ((evaluate c4R
          { store :=
              { deposit := 10000, cash := 10000, markets := []
                dayStartDate := none, dayStartEquity := 0 }
            tradeTimestamps := [], lastLossTs := 0 }
          "SOL-PERP" .buy 20 10 5000 "2026-10-12").1.qty)| * 10 = 100 := by
  have h := c4_cap_allows_and_resizes c4R
    { store :=
        { deposit := 10000, cash := 10000, markets := []
          dayStartDate := none, dayStartEquity := 0 }
      tradeTimestamps := [], lastLossTs := 0 }
    "SOL-PERP" .buy 20 10 5000 "2026-10-12"
    (by norm_num)
    (by norm_num [isExit, getMarket, List.lookup, emptyBook])
    (by norm_num [prune, c4R])
    (by norm_num [c4R])
    (by norm_num [c4R])
    (by norm_num [c4R])
    (by norm_num)
    (by norm_num [getMarket, List.lookup, emptyBook, c4R, nextPosition, abs])
  refine ⟨h.1, h.2.1, ?_⟩
  have h4 := h.2.2.2.1 (by norm_num [getMarket, List.lookup, emptyBook, c4R, abs])
  simpa [getMarket, List.lookup, emptyBook, c4R] using h4

/-- Risk config fixture for the throttle claims: no position ceiling, a cap
of one trade per minute, cooldown and daily loss limit disabled. -/
def throttleR : RiskCfg :=
  { maxPositionUsdPerMarket := 0, maxTradesPerMin := 1
    cooldownAfterLossMs := 0, dailyLossLimitPct := 0 }

/-- C7 counterexample: with a 100 USD ceiling (config `c4R`, all other checks
idle), an entry of 20 from flat at mark 10 is approved capped to 10 (reason
`"max_position"`), yet the throttle window stays empty — the capped approval
is *not* recorded into the trade-rate window, because `evaluate` only pushes
a timestamp on the uncapped `"ok"` path. -/
theorem c7_counterexample :
    (evaluate c4R
        { store :=
            { deposit := 10000, cash := 10000, markets := []
              dayStartDate := none, dayStartEquity := 0 }
          tradeTimestamps := [], lastLossTs := 0 }
        "SOL-PERP" .buy 20 10 5000 "2026-10-12").1
        = { allowed := true, qty := 10, reason := "max_position" }
      ∧ (evaluate c4R
          { store :=
              { deposit := 10000, cash := 10000, markets := []
                dayStartDate := none, dayStartEquity := 0 }
            tradeTimestamps := [], lastLossTs := 0 }
          "SOL-PERP" .buy 20 10 5000 "2026-10-12").2.tradeTimestamps = [] := by
  norm_num [evaluate, isExit, getMarket, prune, capAndRecord, capByMaxPosition,
    nextPosition, c4R, emptyBook, List.lookup, abs, min_def, max_def]

/-- C7 (amended): of the non-exit evaluations passing the throttle, cooldown
and daily-loss checks, exactly the *uncapped* approvals (reason `"ok"`)
record a timestamp into the rolling 60-second window; ceiling-capped
approvals (reason `"max_position"`) leave the window unchanged.  Once the
window holds at least the per-minute cap, any further non-exit evaluation is
rejected with reason `"throttle"`, while an exit order is still allowed. -/
theorem c7_ok_approvals_recorded (R : RiskCfg) (st : RiskState) (symbol : String)
    (side : Side) (desiredQty mark now : ℚ) (today : String)
    (hnx : isExit st.store symbol side = false)
    (hth : (prune now st.tradeTimestamps).length < R.maxTradesPerMin)
    (hcd : ¬ (R.cooldownAfterLossMs ≠ 0 ∧ now - st.lastLossTs < R.cooldownAfterLossMs))
    (hdl : ¬ (0 < R.dailyLossLimitPct ∧
        st.store.cash + calcUPnLTotal st.store
          ≤ (ensureDayStartEquity st.store today).1 * (1 - R.dailyLossLimitPct / 100))) :
    (¬ capByMaxPosition R st.store symbol side desiredQty mark < desiredQty →
        (evaluate R st symbol side desiredQty mark now today).1
            = { allowed := true, qty := desiredQty, reason := "ok" }
          ∧ (evaluate R st symbol side desiredQty mark now today).2.tradeTimestamps
            = prune now st.tradeTimestamps ++ [now])
      ∧ (capByMaxPosition R st.store symbol side desiredQty mark < desiredQty →
          (evaluate R st symbol side desiredQty mark now today).1
              = { allowed := true
                  qty := capByMaxPosition R st.store symbol side desiredQty mark
                  reason := "max_position" }
            ∧ (evaluate R st symbol side desiredQty mark now today).2.tradeTimestamps
              = prune now st.tradeTimestamps)
      ∧ (∀ (st' : RiskState) (symbol' : String) (side' : Side) (q' m' now' : ℚ)
            (today' : String),
          isExit st'.store symbol' side' = false →
          R.maxTradesPerMin ≤ (prune now' st'.tradeTimestamps).length →
          (evaluate R st' symbol' side' q' m' now' today').1
            = { allowed := false, qty := 0, reason := "throttle" })
      ∧ (∀ (st' : RiskState) (symbol' : String) (side' : Side) (q' m' now' : ℚ)
            (today' : String),
          0 < q' → isExit st'.store symbol' side' = true →
          (evaluate R st' symbol' side' q' m' now' today').1
            = { allowed := true, qty := q', reason := "exit" }) := by
  have hev := evaluate_pass_eq R st symbol side desiredQty mark now today hnx hth hcd hdl
  refine ⟨?_, ?_, ?_, ?_⟩
  · intro hcap
    rw [hev.1, hev.2, if_neg hcap, if_neg hcap]
    exact ⟨rfl, rfl⟩
  · intro hcap
    rw [hev.1, hev.2, if_pos hcap, if_pos hcap]
    exact ⟨rfl, rfl⟩
  · intro st' symbol' side' q' m' now' today' hnx' hfull
    simp only [evaluate, hnx', Bool.false_eq_true, if_false, if_pos hfull]
  · intro st' symbol' side' q' m' now' today' hq' hex'
    simp [evaluate, hex', hq']

/-- Witness for C7 (amended): with cap 1 and an empty window, an uncapped
entry from flat is approved with reason `"ok"` and recorded at time 1000;
a second entry evaluated against the resulting window at time 1500 is
rejected `"throttle"`, while a simultaneous sell-exit against a long of 3 is
still allowed. -/
theorem c7_witness :
    (evaluate throttleR
        { store :=
            { deposit := 10000, cash := 10000, markets := []
              dayStartDate := none, dayStartEquity := 0 }
          tradeTimestamps := [], lastLossTs := 0 }
        "SOL-PERP" .buy 1 10 1000 "2026-10-12").1
        = { allowed := true, qty := 1, reason := "ok" }
      ∧ (evaluate throttleR
          { store :=
              { deposit := 10000, cash := 10000, markets := []
                dayStartDate := none, dayStartEquity := 0 }
            tradeTimestamps := [], lastLossTs := 0 }
          "SOL-PERP" .buy 1 10 1000 "2026-10-12").2.tradeTimestamps = [1000]
      ∧ (evaluate throttleR
          { store :=
              { deposit := 10000, cash := 10000, markets := []
                dayStartDate := none, dayStartEquity := 0 }
            tradeTimestamps := [1000], lastLossTs := 0 }
          "BTC-PERP" .buy 1 10 1500 "2026-10-12").1
          = { allowed := false, qty := 0, reason := "throttle" }
      ∧ (evaluate throttleR
          { store :=
              { deposit := 10000, cash := 10000
                markets := [("ETH-PERP",
                  { position := 3, entryPrice := 10, realizedPnL := 0, feesPaid := 0
                    lastMark := some 10 })]
                dayStartDate := none, dayStartEquity := 0 }
            tradeTimestamps := [1000], lastLossTs := 0 }
          "ETH-PERP" .sell 2 10 1500 "2026-10-12").1
          = { allowed := true, qty := 2, reason := "exit" } := by
  have h := c7_ok_approvals_recorded throttleR
    { store :=
        { deposit := 10000, cash := 10000, markets := []
          dayStartDate := none, dayStartEquity := 0 }
      tradeTimestamps := [], lastLossTs := 0 }
    "SOL-PERP" .buy 1 10 1000 "2026-10-12"
    (by norm_num [isExit, getMarket, List.lookup, emptyBook])
    (by norm_num [prune, throttleR])
    (by norm_num [throttleR])
    (by norm_num [throttleR])
  have hnocap : ¬ capByMaxPosition throttleR
      { deposit := 10000, cash := 10000, markets := []
        dayStartDate := none, dayStartEquity := 0 }
      "SOL-PERP" .buy (1 : ℚ) 10 < 1 := by
    norm_num [capByMaxPosition, throttleR]
  have h1 := h.1 hnocap
  have h3 := h.2.2.1
    { store :=
        { deposit := 10000, cash := 10000, markets := []
          dayStartDate := none, dayStartEquity := 0 }
      tradeTimestamps := [1000], lastLossTs := 0 }
    "BTC-PERP" .buy 1 10 1500 "2026-10-12"
    (by norm_num [isExit, getMarket, List.lookup, emptyBook])
    (by norm_num [prune, throttleR, List.dropWhile])
  have h4 := h.2.2.2
    { store :=
        { deposit := 10000, cash := 10000
          markets := [("ETH-PERP",
            { position := 3, entryPrice := 10, realizedPnL := 0, feesPaid := 0
              lastMark := some 10 })]
          dayStartDate := none, dayStartEquity := 0 }
      tradeTimestamps := [1000], lastLossTs := 0 }
    "ETH-PERP" .sell 2 10 1500 "2026-10-12"
    (by norm_num)
    (by norm_num [isExit, getMarket, List.lookup])
  exact ⟨h1.1, h1.2, h3, h4⟩

/-- C10: the trade-rate throttle is global across instruments.  An uncapped
approved entry for one symbol appends the current time to the *shared*
timestamp list, and once that shared (pruned) list reaches the per-minute
cap, a non-exit evaluation for *any* symbol — in particular a different
one — is rejected with `"throttle"`; the rejection persists until the
timestamps fall out of the 60-second window, after which non-exit
evaluations are no longer throttle-rejected. -/
theorem c10_throttle_global (R : RiskCfg) (st : RiskState) (s1 s2 : String)
    (side1 side2 : Side) (q1 q2 m1 m2 now nowB : ℚ) (today todayB : String)
    (hnx1 : isExit st.store s1 side1 = false)
    (hth : (prune now st.tradeTimestamps).length < R.maxTradesPerMin)
    (hcd : ¬ (R.cooldownAfterLossMs ≠ 0 ∧ now - st.lastLossTs < R.cooldownAfterLossMs))
    (hdl : ¬ (0 < R.dailyLossLimitPct ∧
        st.store.cash + calcUPnLTotal st.store
          ≤ (ensureDayStartEquity st.store today).1 * (1 - R.dailyLossLimitPct / 100)))
    (hnocap : ¬ capByMaxPosition R st.store s1 side1 q1 m1 < q1)
    (hnx2 : isExit (evaluate R st s1 side1 q1 m1 now today).2.store s2 side2 = false)
    (hfull : R.maxTradesPerMin
      ≤ (prune nowB (prune now st.tradeTimestamps ++ [now])).length) :
    (evaluate R st s1 side1 q1 m1 now today).1.reason = "ok"
      ∧ (evaluate R st s1 side1 q1 m1 now today).2.tradeTimestamps
          = prune now st.tradeTimestamps ++ [now]
      ∧ (evaluate R (evaluate R st s1 side1 q1 m1 now today).2
            s2 side2 q2 m2 nowB todayB).1
          = { allowed := false, qty := 0, reason := "throttle" }
      ∧ (∀ (s3 : String) (side3 : Side) (q3 m3 nowC : ℚ) (todayC : String),
          isExit (evaluate R st s1 side1 q1 m1 now today).2.store s3 side3 = false →
          prune nowC (evaluate R st s1 side1 q1 m1 now today).2.tradeTimestamps = [] →
          0 < R.maxTradesPerMin →
          (evaluate R (evaluate R st s1 side1 q1 m1 now today).2
              s3 side3 q3 m3 nowC todayC).1.reason ≠ "throttle") := by
  have hev := evaluate_pass_eq R st s1 side1 q1 m1 now today hnx1 hth hcd hdl
  have hr : (evaluate R st s1 side1 q1 m1 now today).1.reason = "ok" := by
    rw [hev.1, if_neg hnocap]
  have hts : (evaluate R st s1 side1 q1 m1 now today).2.tradeTimestamps
      = prune now st.tradeTimestamps ++ [now] := by
    rw [hev.2, if_neg hnocap]
  refine ⟨hr, hts, ?_, ?_⟩
  · generalize hg : (evaluate R st s1 side1 q1 m1 now today).2 = st2 at hnx2 hts
    simp only [evaluate, hnx2, Bool.false_eq_true, if_false, hts]
    rw [if_pos hfull]
  · intro s3 side3 q3 m3 nowC todayC hnx3 hempty hcappos
    generalize hg : (evaluate R st s1 side1 q1 m1 now today).2 = st2 at hnx3 hempty ⊢
    simp only [evaluate, hnx3, Bool.false_eq_true, if_false, hempty,
      List.length_nil]
    rw [if_neg (not_le.mpr hcappos)]
    split_ifs <;> simp [capAndRecord] <;> split_ifs <;> simp

/-- Witness for C10: with cap 1, an `"ok"` entry for `SOL-PERP` at time 1000
makes the shared window `[1000]`; a `BTC-PERP` entry at time 1500 is then
rejected `"throttle"`, and at time 70000 (window pruned empty) a `BTC-PERP`
entry is no longer throttle-rejected. -/
theorem c10_witness :
    (evaluate throttleR
        { store :=
            { deposit := 10000, cash := 10000, markets := []
              dayStartDate := none, dayStartEquity := 0 }
          tradeTimestamps := [], lastLossTs := 0 }
        "SOL-PERP" .buy 1 10 1000 "2026-10-12").1.reason = "ok"
      ∧ (evaluate throttleR
          { store :=
              { deposit := 10000, cash := 10000, markets := []
                dayStartDate := none, dayStartEquity := 0 }
            tradeTimestamps := [], lastLossTs := 0 }
          "SOL-PERP" .buy 1 10 1000 "2026-10-12").2.tradeTimestamps
          = prune 1000 [] ++ [1000]
      ∧ (evaluate throttleR
          (evaluate throttleR
            { store :=
                { deposit := 10000, cash := 10000, markets := []
                  dayStartDate := none, dayStartEquity := 0 }
              tradeTimestamps := [], lastLossTs := 0 }
            "SOL-PERP" .buy 1 10 1000 "2026-10-12").2
          "BTC-PERP" .buy 1 10 1500 "2026-10-12").1
          = { allowed := false, qty := 0, reason := "throttle" }
      ∧ (evaluate throttleR
          (evaluate throttleR
            { store :=
                { deposit := 10000, cash := 10000, markets := []
                  dayStartDate := none, dayStartEquity := 0 }
              tradeTimestamps := [], lastLossTs := 0 }
            "SOL-PERP" .buy 1 10 1000 "2026-10-12").2
          "BTC-PERP" .buy 1 10 70000 "2026-10-12").1.reason ≠ "throttle" := by
  have h := c10_throttle_global throttleR
    { store :=
        { deposit := 10000, cash := 10000, markets := []
          dayStartDate := none, dayStartEquity := 0 }
      tradeTimestamps := [], lastLossTs := 0 }
    "SOL-PERP" "BTC-PERP" .buy .buy 1 1 10 10 1000 1500 "2026-10-12" "2026-10-12"
    (by norm_num [isExit, getMarket, List.lookup, emptyBook])
    (by norm_num [prune, throttleR])
    (by norm_num [throttleR])
    (by norm_num [throttleR])
    (by norm_num [capByMaxPosition, throttleR])
    (by
      norm_num [evaluate, isExit, getMarket, prune, capAndRecord, capByMaxPosition,
        throttleR, emptyBook, List.lookup])
    (by norm_num [prune, throttleR, List.dropWhile])
  refine ⟨h.1, h.2.1, h.2.2.1, ?_⟩
  refine h.2.2.2 "BTC-PERP" .buy 1 10 70000 "2026-10-12"
    (by
      norm_num [evaluate, isExit, getMarket, prune, capAndRecord, capByMaxPosition,
        throttleR, emptyBook, List.lookup])
    ?_ (by norm_num [throttleR])
  rw [h.2.1]
  norm_num [prune, List.dropWhile]

/-- C9: the post-fill hook wiring is broken — `runBot` invokes
`risk.onTrade(...)` after every fill, but the object returned by
`createRiskManager` exposes only `evaluate`, `onRealizedPnL` and
`ensureDayStartEquity`; the loss-cooldown hook `onRealizedPnL` is therefore
never called on the fill path. -/
theorem c9_postfill_hook_not_exposed : runBotPostFillCallee ∉ riskApiMembers := by
  simp [riskApiMembers, runBotPostFillCallee]

/-! ## Signal engine (src/strategies/emaAdaptive.js)

The adaptive EMA strategy as a deterministic state machine.  `Date.now()` is
threaded in as the `now` parameter; `onPrice`'s `Number.isFinite(mark)`
guard is vacuous over `ℚ` and therefore omitted. -/

structure StratCfg where
  fastPeriod : ℕ
  slowPeriod : ℕ
  baseNotional : ℚ
  enterBpsLong : ℚ
  exitBpsLong : ℚ
  enterBpsShort : ℚ
  exitBpsShort : ℚ
  longOnly : Bool
  minHoldMs : ℚ
  cooldownMs : ℚ
  volLookback : ℚ
  volK : ℚ
  breakoutLookback : ℕ
  breakoutBps : ℚ
  warmTicks : ℕ
deriving DecidableEq, Repr

/-- `warmTicks`: `max(1, minWarmTicks)` when configured, else
`max(2*slowPeriod, 200)`. -/
def deriveWarmTicks (minWarmTicks : Option ℕ) (slowPeriod : ℕ) : ℕ :=
  match minWarmTicks with
  | some m => max 1 m
  | none => max (2 * slowPeriod) 200

inductive PosState
  | flat
  | long
  | short
deriving DecidableEq, Repr

inductive Action
  | buy
  | sell
deriving DecidableEq, Repr

/-- The strategy's internal mutable state (`fast`, `slow`, `prevSlow`,
`lastState`, `entryTs`, `lastExitTs`, `lastMark`, `volEwmaBps`, `ticks`, and
the breakout ring buffer `buf`). -/
structure StratState where
  fast : Option ℚ
  slow : Option ℚ
  prevSlow : Option ℚ
  lastMark : Option ℚ
  volEwmaBps : Option ℚ
  lastState : PosState
  entryTs : ℚ
  lastExitTs : ℚ
  ticks : ℕ
  buf : List ℚ
deriving DecidableEq, Repr

/-- The state of a freshly created strategy with an empty seed. -/
def freshState : StratState :=
  { fast := none, slow := none, prevSlow := none, lastMark := none, volEwmaBps := none
    lastState := .flat, entryTs := 0, lastExitTs := 0, ticks := 0, buf := [] }

/-- EMA smoothing constant `2/(N+1)`. -/
def kOf (period : ℕ) : ℚ := 2 / ((period : ℚ) + 1)

/-- One EMA update: `prev == null ? mark : prev + k*(mark - prev)`. -/
def emaStep (k : ℚ) (prev : Option ℚ) (mark : ℚ) : ℚ :=
  match prev with
  | none => mark
  | some v => v + k * (mark - v)

/-- The volatility EWMA update (absolute return in bps). -/
def volStep (volLookback : ℚ) (lastMark volEwmaBps : Option ℚ) (mark : ℚ) : Option ℚ :=
  match lastMark with
  | none => volEwmaBps
  | some lm =>
    let retBps := |(mark - lm) / lm| * 10000
    let kVol := 2 / (volLookback + 1)
    some (match volEwmaBps with
      | none => retBps
      | some v => v + kVol * (retBps - v))

/-- `push(m)` on the bounded breakout ring buffer (no-op when the lookback
is 0; `shift()` drops the front once the bound is exceeded). -/
def pushMark (breakoutLookback : ℕ) (buf : List ℚ) (m : ℚ) : List ℚ :=
  if breakoutLookback = 0 then buf
  else
    let b := buf ++ [m]
    if breakoutLookback < b.length then b.tail else b

/-- `Math.min(...buf)` (only used under a `buf.length >= 2` guard). -/
def listMin : List ℚ → ℚ
  | [] => 0
  | x :: xs => xs.foldl min x

/-- `Math.max(...buf)` (only used under a `buf.length >= 2` guard). -/
def listMax : List ℚ → ℚ
  | [] => 0
  | x :: xs => xs.foldl max x

/-- The unconditional part of `onPrice` executed on *every* tick, before the
warm-up check: volatility EWMA, `lastMark`, breakout buffer, both EMAs and
the tick counter. -/
def coreUpdate (c : StratCfg) (σ : StratState) (mark : ℚ) : StratState :=
  { σ with
    volEwmaBps := volStep c.volLookback σ.lastMark σ.volEwmaBps mark
    lastMark := some mark
    buf := pushMark c.breakoutLookback σ.buf mark
    fast := some (emaStep (kOf c.fastPeriod) σ.fast mark)
    slow := some (emaStep (kOf c.slowPeriod) σ.slow mark)
    ticks := σ.ticks + 1 }

/-- `onPrice({mark})` translated statement by statement: the core updates,
then the warm-up gate (`prevSlowLocal == null || ticks < warmTicks` emits
nothing and sets `prevSlow = slow`), then features, dynamic thresholds,
optional breakout confirmation and the flat/long/short state machine. -/
def onPrice (c : StratCfg) (σ : StratState) (mark now : ℚ) : StratState × Option Action :=
  let base := coreUpdate c σ mark
  match σ.slow with
  | none => ({ base with prevSlow := base.slow }, none)
  | some psl =>
    if base.ticks < c.warmTicks then
      ({ base with prevSlow := base.slow }, none)
    else
      let fastVal := emaStep (kOf c.fastPeriod) σ.fast mark
      let slowVal := emaStep (kOf c.slowPeriod) σ.slow mark
      let deltaBps := (fastVal - slowVal) / mark * 10000
      let slowSlopeBps := (slowVal - psl) / mark * 10000
      let σ2 := { base with prevSlow := some psl }
      let v := (volStep c.volLookback σ.lastMark σ.volEwmaBps mark).getD 0
      let dynEnterLong := max c.enterBpsLong (v * c.volK)
      let dynExitLong := max c.exitBpsLong (v * c.volK * (1 / 2))
      let dynEnterShort := max c.enterBpsShort (v * c.volK)
      let dynExitShort := max c.exitBpsShort (v * c.volK * (1 / 2))
      let breakoutOK : Bool × Bool :=
        if 0 < c.breakoutLookback ∧ 2 ≤ base.buf.length then
          (decide (listMax base.buf * (1 - c.breakoutBps / 10000) ≤ mark),
           decide (mark ≤ listMin base.buf * (1 + c.breakoutBps / 10000)))
        else (true, true)
      let canExit := c.minHoldMs ≤ now - σ.entryTs
      let cooled := c.cooldownMs ≤ now - σ.lastExitTs
      if σ.lastState = PosState.long then
        if deltaBps < -dynExitLong ∧ canExit then
          ({ σ2 with lastState := .flat, lastExitTs := now }, some .sell)
        else (σ2, none)
      else if σ.lastState = PosState.short ∧ c.longOnly = false then
        if dynExitShort < deltaBps ∧ canExit then
          ({ σ2 with lastState := .flat, lastExitTs := now }, some .buy)
        else (σ2, none)
      else
        if dynEnterLong < deltaBps ∧ 0 < slowSlopeBps ∧ cooled ∧ breakoutOK.1 = true then
          ({ σ2 with lastState := .long, entryTs := now }, some .buy)
        else if c.longOnly = false ∧ deltaBps < -dynEnterShort ∧ slowSlopeBps < 0 ∧ cooled
            ∧ breakoutOK.2 = true then
          ({ σ2 with lastState := .short, entryTs := now }, some .sell)
        else (σ2, none)

/-- The object returned by `snapshot()`. -/
structure Snapshot where
  fast : Option ℚ
  slow : Option ℚ
  prevSlow : Option ℚ
  lastState : PosState
  entryTs : ℚ
  lastExitTs : ℚ
  lastMark : Option ℚ
  volEwmaBps : Option ℚ
  ticks : ℕ
  warmTicks : ℕ
deriving DecidableEq, Repr

/-- `snapshot()`: every piece of internal state (plus `warmTicks`). -/
def snapshot (c : StratCfg) (σ : StratState) : Snapshot :=
  { fast := σ.fast, slow := σ.slow, prevSlow := σ.prevSlow
    lastState := σ.lastState, entryTs := σ.entryTs, lastExitTs := σ.lastExitTs
    lastMark := σ.lastMark, volEwmaBps := σ.volEwmaBps, ticks := σ.ticks
    warmTicks := c.warmTicks }

/-- The seed restore performed by `createStrategy` at restart
(`index.js` passes the persisted snapshot as `seed`):
only `seed.fast`, `seed.slow`, `seed.lastMark` and `seed.volEwmaBps` are
read; `prevSlow`, `lastState`, `entryTs`, `lastExitTs`, `ticks` and the
breakout buffer are re-initialized to their defaults. -/
def initFromSeed (seed : Snapshot) : StratState :=
  { fast := seed.fast, slow := seed.slow, prevSlow := none
    lastMark := seed.lastMark, volEwmaBps := seed.volEwmaBps
    lastState := .flat, entryTs := 0, lastExitTs := 0, ticks := 0, buf := [] }

/-- The warm-up-insensitive core components of the strategy state:
fast EMA, slow EMA, volatility EWMA, last mark, breakout buffer, ticks. -/
def stateCore (σ : StratState) : Option ℚ × Option ℚ × Option ℚ × Option ℚ × List ℚ × ℕ :=
  (σ.fast, σ.slow, σ.volEwmaBps, σ.lastMark, σ.buf, σ.ticks)

/-! ### Theorems about the signal engine -/

/-- C6: on every tick whose (1-based) index is still strictly below the
warm-up threshold, `onPrice` emits no action, while the fast EMA, slow EMA,
volatility EWMA, last mark, breakout buffer and tick counter are still
updated — by `coreUpdate`, the very same recurrences every tick (warm-up or
not, whatever the price pattern) applies to those components. -/
theorem c6_warmup_emits_none (c : StratCfg) (σ : StratState) (mark now : ℚ)
    (h : σ.ticks + 1 < c.warmTicks) :
    (onPrice c σ mark now).2 = none
      ∧ stateCore (onPrice c σ mark now).1 = stateCore (coreUpdate c σ mark)
      ∧ ∀ τ : StratState, stateCore (onPrice c τ mark now).1 = stateCore (coreUpdate c τ mark) := by
  have hcore : ∀ τ : StratState,
      stateCore (onPrice c τ mark now).1 = stateCore (coreUpdate c τ mark) := by
    intro τ
    cases hτ : τ.slow
    · simp only [onPrice, hτ]
      rfl
    · simp only [onPrice, hτ]
      split_ifs <;> rfl
  refine ⟨?_, hcore σ, hcore⟩
  cases hσ : σ.slow
  · simp only [onPrice, hσ]
  · have hlt : (coreUpdate c σ mark).ticks < c.warmTicks := by
      simpa [coreUpdate] using h
    simp only [onPrice, hσ, if_pos hlt]

/-- The configuration used by the C6 witness: the defaults of
`createEMAAdaptive` in `index.js` with the derived warm-up threshold
`max(2*60, 200) = 200`. -/
def c6Cfg : StratCfg :=
  { fastPeriod := 20, slowPeriod := 60, baseNotional := 100
    enterBpsLong := 20, exitBpsLong := 10, enterBpsShort := 28, exitBpsShort := 12
    longOnly := false, minHoldMs := 120000, cooldownMs := 30000
    volLookback := 60, volK := 3 / 2, breakoutLookback := 0, breakoutBps := 5
    warmTicks := deriveWarmTicks none 60 }

/-- Witness for C6: a fresh strategy's very first tick (index 1 < 200) emits
no action and performs the core update. -/
theorem c6_witness :
    freshState.ticks + 1 < c6Cfg.warmTicks
      ∧ (onPrice c6Cfg freshState 100 1000).2 = none
      ∧ stateCore (onPrice c6Cfg freshState 100 1000).1
          = stateCore (coreUpdate c6Cfg freshState 100) := by
  have hwarm : freshState.ticks + 1 < c6Cfg.warmTicks := by
    norm_num [freshState, c6Cfg, deriveWarmTicks]
  have h := c6_warmup_emits_none c6Cfg freshState 100 1000 hwarm
  exact ⟨hwarm, h.1, h.2.1⟩

/-- C5 (amended): restoring a fresh strategy from a persisted snapshot
carries over *only* the two EMAs, the last mark and the volatility estimate;
the previous slow value, the regime state, the entry/exit timestamps, the
tick counter and the breakout buffer are reset to their fresh defaults (so
the restored instance re-enters warm-up and is not, in general, an exact
continuation). -/
theorem c5_restore_keeps_only_indicators (c : StratCfg) (σ : StratState) :
    initFromSeed (snapshot c σ)
      = { fast := σ.fast, slow := σ.slow, prevSlow := none, lastMark := σ.lastMark
          volEwmaBps := σ.volEwmaBps, lastState := .flat, entryTs := 0, lastExitTs := 0
          ticks := 0, buf := [] } := rfl

/-- The strategy configuration of the C5 counterexample: 1/3 EMA periods,
`minWarmTicks = 2`, no churn guards, volatility multiplier 0, breakout
disabled, long-only. -/
def c5Cfg : StratCfg :=
  { fastPeriod := 1, slowPeriod := 3, baseNotional := 100
    enterBpsLong := 20, exitBpsLong := 10, enterBpsShort := 28, exitBpsShort := 12
    longOnly := true, minHoldMs := 0, cooldownMs := 0
    volLookback := 1, volK := 0, breakoutLookback := 0, breakoutBps := 5
    warmTicks := deriveWarmTicks (some 2) 3 }

/-- C5 counterexample: after two warm-up ticks at mark 100, the original
instance emits `buy` on the next tick at mark 200, but a fresh instance
restored from the snapshot taken at that point — fed the very same
subsequent mark at the same time — emits nothing, because the restored tick
counter restarts at 0 and the instance re-enters warm-up.  The snapshot
alone is therefore *not* sufficient for identical continuation. -/
theorem c5_counterexample :
    (onPrice c5Cfg ((onPrice c5Cfg ((onPrice c5Cfg freshState 100 1000).1) 100 2000).1)
        200 3000).2 = some Action.buy
      ∧ (onPrice c5Cfg
          (initFromSeed (snapshot c5Cfg
            ((onPrice c5Cfg ((onPrice c5Cfg freshState 100 1000).1) 100 2000).1)))
          200 3000).2 = none := by
  have h1 : (onPrice c5Cfg freshState 100 1000).1
      = { fast := some 100, slow := some 100, prevSlow := some 100, lastMark := some 100
          volEwmaBps := none, lastState := .flat, entryTs := 0, lastExitTs := 0
          ticks := 1, buf := [] } := by
    norm_num [onPrice, coreUpdate, volStep, emaStep, pushMark, kOf, freshState, c5Cfg,
      deriveWarmTicks]
  rw [h1]
  have h2 : (onPrice c5Cfg
      { fast := some 100, slow := some 100, prevSlow := some 100, lastMark := some 100
        volEwmaBps := none, lastState := .flat, entryTs := 0, lastExitTs := 0
        ticks := 1, buf := [] } 100 2000).1
      = { fast := some 100, slow := some 100, prevSlow := some 100, lastMark := some 100
          volEwmaBps := some 0, lastState := .flat, entryTs := 0, lastExitTs := 0
          ticks := 2, buf := [] } := by
    norm_num [onPrice, coreUpdate, volStep, emaStep, pushMark, kOf, listMin, listMax,
      c5Cfg, deriveWarmTicks, abs]
  rw [h2]
  constructor
  · norm_num [onPrice, coreUpdate, volStep, emaStep, pushMark, kOf, listMin, listMax,
      c5Cfg, deriveWarmTicks, abs]
    simp
  · have h3 : initFromSeed (snapshot c5Cfg
        { fast := some 100, slow := some 100, prevSlow := some 100, lastMark := some 100
          volEwmaBps := some 0, lastState := .flat, entryTs := 0, lastExitTs := 0
          ticks := 2, buf := [] })
        = { fast := some 100, slow := some 100, prevSlow := none, lastMark := some 100
            volEwmaBps := some 0, lastState := .flat, entryTs := 0, lastExitTs := 0
            ticks := 0, buf := [] } := rfl
    rw [h3]
    norm_num [onPrice, coreUpdate, volStep, emaStep, pushMark, kOf,
      c5Cfg, deriveWarmTicks, abs]

end Driftbot
